import Mathlib

/-!
Verification of the key-normalizing mapping `StrKeyDict0` from
`src/code/ch03/StrKeyDict0-test.py`.

The Python class extends `dict` and overrides three methods:

  - `__missing__(self, key)`: called by `dict.__getitem__` on a lookup
    miss; raises `KeyError(key)` when `key` is already a `str`, otherwise
    re-enters `self[str(key)]`.
  - `get(self, key, default)`: `self[key]`, recovering `KeyError` into
    `default`.
  - `__contains__(self, key)`: `key in self.keys() or str(key) in self.keys()`.

Embedding choices:

  - Keys are a tagged union `Key` of text keys (`Key.text`, Python `str`)
    and non-text keys (`Key.int`, the representative non-text type used in
    the repository's doctests).  `Key.isText` models `isinstance(key, str)`
    and `Key.str` models `str(key)` (the identity on text keys).
  - The backing `dict` store is an association list `List (Key × V)` with
    first-match lookup (`dictGet`), update-or-append insertion
    (`dictInsert`, insertion-order preserving like Python's dict) and
    `dictKeys` the list of stored keys.
  - `KeyError(k)` becomes `Except.error k`; a successful lookup is
    `Except.ok v`.
  - `StrKeyDict0.get_item` is `dict.__getitem__` specialised to the class:
    base lookup, falling to `__missing__` on a miss; the `self[str(key)]`
    re-entry is the recursive call, well-founded because the converted key
    is text-typed.
-/

set_option maxHeartbeats 1000000

deriving instance DecidableEq for Except

/-- A Python key: either a text (`str`) key or a non-text key (an integer,
the non-text key type exercised by the repository's doctests). -/
inductive Key where
  | text : String → Key
  | int : Int → Key
deriving DecidableEq

namespace Key

/-- `isinstance(key, str)`. -/
def isText : Key → Bool
  | .text _ => true
  | .int _ => false

/-- `str(key)`: the identity on text keys, decimal rendering of integers. -/
def str : Key → String
  | .text s => s
  | .int n => toString n

/-- The text key obtained by converting `key` to text: `str(key)` viewed
as a key. -/
def toText (k : Key) : Key := .text k.str

theorem isText_toText (k : Key) : (toText k).isText = true := rfl

theorem toText_text (s : String) : toText (.text s) = .text s := rfl

theorem toText_ne_self_of_not_isText (k : Key) (h : k.isText = false) :
    toText k ≠ k := by
  cases k with
  | text s => simp [isText] at h
  | int n => simp [toText]

end Key

/-- Base `dict` lookup (`dict.__getitem__` hit / miss detection): the value
stored under the first matching key, if any. -/
def dictGet {V : Type} : List (Key × V) → Key → Option V
  | [], _ => none
  | (k', v) :: rest, k => if k' = k then some v else dictGet rest k

/-- Base `dict` insertion (`d[k] = v`): update in place when the key is
present, append otherwise (Python dicts preserve insertion order). -/
def dictInsert {V : Type} : List (Key × V) → Key → V → List (Key × V)
  | [], k, v => [(k, v)]
  | (k', v') :: rest, k, v =>
    if k' = k then (k', v) :: rest else (k', v') :: dictInsert rest k v

/-- `self.keys()`: the stored keys, in storage order. -/
def dictKeys {V : Type} (d : List (Key × V)) : List Key := d.map Prod.fst

/-- Relative recursion depth of `__getitem__` on a key: a text key can
never re-enter the conversion branch, a non-text key can do so once. -/
def keyDepth (k : Key) : Nat := if k.isText then 0 else 1

namespace StrKeyDict0

/-- `StrKeyDict0.__getitem__`: base `dict` lookup, falling back to
`__missing__` on a miss.  `__missing__` is inlined here so that the
`self[str(key)]` re-entry appears as the recursive call; it is also
exposed separately as `StrKeyDict0.__missing__` below. -/
def get_item {V : Type} (d : List (Key × V)) (k : Key) : Except Key V :=
  match dictGet d k with
  | some v => Except.ok v
  | none =>
    if k.isText then Except.error k
    else get_item d k.toText
termination_by keyDepth k
decreasing_by
  cases k with
  | text s => simp_all [Key.isText]
  | int n => simp [keyDepth, Key.toText, Key.isText]

/-- `StrKeyDict0.__missing__`: invoked on a `dict` lookup miss; fails with
the original key when it is text, otherwise retries the full lookup on
the converted key. -/
def __missing__ {V : Type} (d : List (Key × V)) (k : Key) : Except Key V :=
  if k.isText then Except.error k
  else get_item d k.toText

/-- `StrKeyDict0.get` (the spec's `get_or_default`): `self[key]`,
recovering any `KeyError` into `default`. -/
def get {V : Type} (d : List (Key × V)) (k : Key) (default : V) : V :=
  match get_item d k with
  | Except.ok v => v
  | Except.error _ => default

/-- `StrKeyDict0.__contains__` (the spec's `contains`):
`key in self.keys() or str(key) in self.keys()`. -/
def __contains__ {V : Type} (d : List (Key × V)) (k : Key) : Bool :=
  (dictKeys d).contains k || (dictKeys d).contains k.toText

/-- `StrKeyDict0(pairs)`: bulk construction from a sequence of pairs by
repeated standard (non-normalizing) insertion, as `dict.__init__` does. -/
def fromPairs {V : Type} (ps : List (Key × V)) : List (Key × V) :=
  ps.foldl (fun d p => dictInsert d p.1 p.2) []

end StrKeyDict0

/-- The body of `get_item` with the single possible recursive call
unfolded: the explicit two-tier lookup of the spec's §4.1 algorithm. -/
def getItemOneStep {V : Type} (d : List (Key × V)) (k : Key) : Except Key V :=
  match dictGet d k with
  | some v => Except.ok v
  | none =>
    if k.isText then Except.error k
    else
      match dictGet d k.toText with
      | some v => Except.ok v
      | none => Except.error k.toText

theorem get_item_unfold {V : Type} (d : List (Key × V)) (k : Key) :
    StrKeyDict0.get_item d k = getItemOneStep d k := by
  rw [StrKeyDict0.get_item]
  unfold getItemOneStep
  cases hd : dictGet d k with
  | some v => rfl
  | none =>
    by_cases hk : k.isText
    · simp [hk]
    · simp [hk]
      rw [StrKeyDict0.get_item]
      cases hd2 : dictGet d k.toText with
      | some v => rfl
      | none => simp [Key.isText_toText]

theorem dictKeys_contains_eq {V : Type} (d : List (Key × V)) (k : Key) :
    (dictKeys d).contains k = (dictGet d k).isSome := by
  induction d with
  | nil => rfl
  | cons p rest ih =>
    obtain ⟨k', v⟩ := p
    by_cases h : k' = k
    · subst h
      simp [dictKeys, dictGet]
    · have hne : ¬k = k' := fun he => h he.symm
      have hb : (k == k') = false := beq_eq_false_iff_ne.mpr hne
      simpa [dictKeys, dictGet, h, hb] using ih

theorem dictGet_dictInsert_self {V : Type} (d : List (Key × V)) (k : Key) (v : V) :
    dictGet (dictInsert d k v) k = some v := by
  induction d with
  | nil => simp [dictInsert, dictGet]
  | cons p rest ih =>
    obtain ⟨k', v'⟩ := p
    by_cases h : k' = k
    · subst h
      simp [dictInsert, dictGet]
    · simp [dictInsert, dictGet, h]
      exact ih

theorem fromPairs_append_single {V : Type} (ps : List (Key × V)) (k : Key) (v : V) :
    StrKeyDict0.fromPairs (ps ++ [(k, v)]) =
      dictInsert (StrKeyDict0.fromPairs ps) k v := by
  simp [StrKeyDict0.fromPairs, List.foldl_append]

/-- The doctest map: `StrKeyDict0([('2', 'two'), ('4', 'four')])`. -/
def demoMap : List (Key × String) :=
  StrKeyDict0.fromPairs [(Key.text "2", "two"), (Key.text "4", "four")]

/-- Claim C1: on a miss, `get_item` fails with `KeyNotFound` reporting the
original key when the key is text-typed, and reporting the converted text
key `str(key)` — never the original key — when the key is non-text and the
converted key also misses. -/
theorem C1_keyNotFound_reporting {V : Type} (d : List (Key × V)) (k : Key) :
    (k.isText = true → dictGet d k = none →
      StrKeyDict0.get_item d k = Except.error k) ∧
    (k.isText = false → dictGet d k = none → dictGet d k.toText = none →
      StrKeyDict0.get_item d k = Except.error k.toText ∧ k.toText ≠ k) := by
  constructor
  · intro ht hm
    rw [get_item_unfold]
    unfold getItemOneStep
    simp [hm, ht]
  · intro ht hm hm2
    refine ⟨?_, Key.toText_ne_self_of_not_isText k ht⟩
    rw [get_item_unfold]
    unfold getItemOneStep
    simp [hm, hm2, ht]

theorem C1_keyNotFound_reporting_witness :
    StrKeyDict0.get_item [(Key.text "2", "two")] (Key.text "5") =
      Except.error (Key.text "5") ∧
    (StrKeyDict0.get_item [(Key.text "2", "two")] (Key.int 5) =
      Except.error (Key.toText (Key.int 5)) ∧ Key.toText (Key.int 5) ≠ Key.int 5) :=
  ⟨(C1_keyNotFound_reporting [(Key.text "2", "two")] (Key.text "5")).1 rfl (by decide),
   (C1_keyNotFound_reporting [(Key.text "2", "two")] (Key.int 5)).2 rfl
     (by decide) (by decide)⟩

/-- Claim C2: when a text key `k` is stored under value `v`, looking up a
non-text key `n` with `str(n) = k` (and not itself stored under a different
value) succeeds with the same value, so `get_item n = get_item k = v`. -/
theorem C2_nontext_lookup_equiv {V : Type} (d : List (Key × V)) (s : String)
    (v : V) (n : Key)
    (hk : dictGet d (Key.text s) = some v)
    (hn : n.isText = false) (hs : n.str = s)
    (hnd : dictGet d n = none ∨ dictGet d n = some v) :
    StrKeyDict0.get_item d n = Except.ok v ∧
    StrKeyDict0.get_item d (Key.text s) = Except.ok v ∧
    StrKeyDict0.get_item d n = StrKeyDict0.get_item d (Key.text s) := by
  have htext : StrKeyDict0.get_item d (Key.text s) = Except.ok v := by
    rw [get_item_unfold]
    unfold getItemOneStep
    simp [hk]
  have hton : n.toText = Key.text s := by simp [Key.toText, hs]
  have hmain : StrKeyDict0.get_item d n = Except.ok v := by
    rw [get_item_unfold]
    unfold getItemOneStep
    rcases hnd with h | h
    · simp [h, hn, hton, hk]
    · simp [h]
  exact ⟨hmain, htext, hmain.trans htext.symm⟩

theorem C2_nontext_lookup_equiv_witness :
    StrKeyDict0.get_item [(Key.text "4", "four")] (Key.int 4) = Except.ok "four" ∧
    StrKeyDict0.get_item [(Key.text "4", "four")] (Key.text "4") = Except.ok "four" ∧
    StrKeyDict0.get_item [(Key.text "4", "four")] (Key.int 4) =
      StrKeyDict0.get_item [(Key.text "4", "four")] (Key.text "4") :=
  C2_nontext_lookup_equiv [(Key.text "4", "four")] "4" "four" (Key.int 4)
    (by decide) rfl (by decide) (Or.inl (by decide))

/-- Claim C3: `contains` is true exactly when the key is present among the
stored keys verbatim or its text representation is present among the
stored keys; both checks are direct membership tests on the stored keys. -/
theorem C3_contains_membership {V : Type} (d : List (Key × V)) (k : Key) :
    StrKeyDict0.__contains__ d k = true ↔
      (k ∈ dictKeys d ∨ k.toText ∈ dictKeys d) := by
  unfold StrKeyDict0.__contains__
  simp

/-- Claim C4: `get_or_default` performs the same resolution as `get_item`:
it returns `default` exactly when `get_item` fails with `KeyNotFound`
(whatever key the error reports), and returns the looked-up value whenever
`get_item` succeeds; being a total function it never raises. -/
theorem C4_get_or_default_resolution {V : Type} (d : List (Key × V)) (k : Key)
    (default : V) :
    (∀ e, StrKeyDict0.get_item d k = Except.error e →
      StrKeyDict0.get d k default = default) ∧
    (∀ v, StrKeyDict0.get_item d k = Except.ok v →
      StrKeyDict0.get d k default = v) := by
  constructor <;> intro x hx <;> unfold StrKeyDict0.get <;> rw [hx]

theorem C4_get_or_default_resolution_witness :
    StrKeyDict0.get [(Key.text "2", "two")] (Key.int 1) "N/A" = "N/A" ∧
    StrKeyDict0.get [(Key.text "2", "two")] (Key.text "2") "N/A" = "two" :=
  ⟨(C4_get_or_default_resolution [(Key.text "2", "two")] (Key.int 1) "N/A").1
      (Key.text "1") (by rw [get_item_unfold]; decide),
   (C4_get_or_default_resolution [(Key.text "2", "two")] (Key.text "2") "N/A").2
      "two" (by rw [get_item_unfold]; decide)⟩

/-- Claim C5: a verbatim hit short-circuits: when the given key is stored,
`get_item` returns its value directly, even when the key's text
representation is stored under a different value. -/
theorem C5_direct_hit_short_circuit {V : Type} (d : List (Key × V)) (k : Key)
    (v : V) (h : dictGet d k = some v) :
    StrKeyDict0.get_item d k = Except.ok v ∧
    (∀ w, dictGet d k.toText = some w → w ≠ v →
      StrKeyDict0.get_item d k ≠ Except.ok w) := by
  have hmain : StrKeyDict0.get_item d k = Except.ok v := by
    rw [get_item_unfold]
    unfold getItemOneStep
    simp [h]
  refine ⟨hmain, ?_⟩
  intro w hw hne hcontra
  rw [hmain] at hcontra
  exact hne (Except.ok.inj hcontra).symm

theorem C5_direct_hit_short_circuit_witness :
    StrKeyDict0.get_item [(Key.int 4, "intfour"), (Key.text "4", "textfour")]
      (Key.int 4) = Except.ok "intfour" ∧
    StrKeyDict0.get_item [(Key.int 4, "intfour"), (Key.text "4", "textfour")]
      (Key.int 4) ≠ Except.ok "textfour" :=
  ⟨(C5_direct_hit_short_circuit
      [(Key.int 4, "intfour"), (Key.text "4", "textfour")] (Key.int 4) "intfour"
      (by decide)).1,
   (C5_direct_hit_short_circuit
      [(Key.int 4, "intfour"), (Key.text "4", "textfour")] (Key.int 4) "intfour"
      (by decide)).2 "textfour" (by decide) (by decide)⟩

/-- Claim C6: construction inserts each pair with the standard
non-normalizing insertion, so a non-text key supplied at construction is
stored as-is and is reachable directly, while its text form still misses
(with `KeyNotFound` reporting that text key) unless independently stored:
normalization happens only on read. -/
theorem C6_construction_no_normalization {V : Type} (ps : List (Key × V))
    (n : Key) (v : V) (_hn : n.isText = false) :
    dictGet (StrKeyDict0.fromPairs (ps ++ [(n, v)])) n = some v ∧
    StrKeyDict0.get_item (StrKeyDict0.fromPairs (ps ++ [(n, v)])) n =
      Except.ok v ∧
    (dictGet (StrKeyDict0.fromPairs (ps ++ [(n, v)])) n.toText = none →
      StrKeyDict0.get_item (StrKeyDict0.fromPairs (ps ++ [(n, v)])) n.toText =
        Except.error n.toText) := by
  have hstore : dictGet (StrKeyDict0.fromPairs (ps ++ [(n, v)])) n = some v := by
    rw [fromPairs_append_single]
    exact dictGet_dictInsert_self _ _ _
  refine ⟨hstore, ?_, ?_⟩
  · rw [get_item_unfold]
    unfold getItemOneStep
    simp [hstore]
  · intro hmiss
    rw [get_item_unfold]
    unfold getItemOneStep
    simp [hmiss, Key.isText_toText]

theorem C6_construction_no_normalization_witness :
    dictGet (StrKeyDict0.fromPairs ([] ++ [(Key.int 7, "seven")])) (Key.int 7) =
      some "seven" ∧
    StrKeyDict0.get_item (StrKeyDict0.fromPairs ([] ++ [(Key.int 7, "seven")]))
      (Key.int 7) = Except.ok "seven" ∧
    StrKeyDict0.get_item (StrKeyDict0.fromPairs ([] ++ [(Key.int 7, "seven")]))
      (Key.toText (Key.int 7)) = Except.error (Key.toText (Key.int 7)) :=
  ⟨(C6_construction_no_normalization [] (Key.int 7) "seven" rfl).1,
   (C6_construction_no_normalization [] (Key.int 7) "seven" rfl).2.1,
   (C6_construction_no_normalization [] (Key.int 7) "seven" rfl).2.2 (by decide)⟩

/-- Claim C7: the doctest scenario on the map built from
`[("2","two"), ("4","four")]`: `get_item "2" = "two"`,
`get_item 4 = "four"`, `get_item 1` fails reporting the converted key
`"1"`, `get_or_default 4` returns `"four"` (for any default),
`get_or_default 1 "N/A" = "N/A"`, `contains 2` and not `contains 1`. -/
theorem C7_doctest_scenario :
    StrKeyDict0.get_item demoMap (Key.text "2") = Except.ok "two" ∧
    StrKeyDict0.get_item demoMap (Key.int 4) = Except.ok "four" ∧
    StrKeyDict0.get_item demoMap (Key.int 1) = Except.error (Key.text "1") ∧
    (∀ dflt : String, StrKeyDict0.get demoMap (Key.int 4) dflt = "four") ∧
    StrKeyDict0.get demoMap (Key.int 1) "N/A" = "N/A" ∧
    StrKeyDict0.__contains__ demoMap (Key.int 2) = true ∧
    StrKeyDict0.__contains__ demoMap (Key.int 1) = false := by
  refine ⟨?_, ?_, ?_, ?_, ?_, ?_, ?_⟩
  · rw [get_item_unfold]; decide
  · rw [get_item_unfold]; decide
  · rw [get_item_unfold]; decide
  · intro dflt
    unfold StrKeyDict0.get
    rw [get_item_unfold]
    have h : getItemOneStep demoMap (Key.int 4) = Except.ok "four" := by decide
    rw [h]
  · unfold StrKeyDict0.get
    rw [get_item_unfold]
    decide
  · decide
  · decide

/-- Base `dict` lookup with the backing store threaded explicitly: a read
returns the store it ran on, unchanged. -/
def dictGetThreaded {V : Type} (d : List (Key × V)) (k : Key) :
    Option V × List (Key × V) := (dictGet d k, d)

/-- `self.keys()` with the backing store threaded explicitly. -/
def dictKeysThreaded {V : Type} (d : List (Key × V)) :
    List Key × List (Key × V) := (dictKeys d, d)

/-- `get_item` with the backing store threaded through every base-`dict`
operation it performs, so that the store visible after the call can be
compared with the store before it. -/
def getItemThreaded {V : Type} (d : List (Key × V)) (k : Key) :
    Except Key V × List (Key × V) :=
  match dictGetThreaded d k with
  | (some v, d1) => (Except.ok v, d1)
  | (none, d1) =>
    if k.isText then (Except.error k, d1)
    else getItemThreaded d1 k.toText
termination_by keyDepth k
decreasing_by
  cases k with
  | text s => simp_all [Key.isText]
  | int n => simp [keyDepth, Key.toText, Key.isText]

/-- `get` with the backing store threaded through the `get_item` call it
makes. -/
def getThreaded {V : Type} (d : List (Key × V)) (k : Key) (default : V) :
    V × List (Key × V) :=
  match getItemThreaded d k with
  | (Except.ok v, d1) => (v, d1)
  | (Except.error _, d1) => (default, d1)

/-- `__contains__` with the backing store threaded through its two
`self.keys()` reads. -/
def containsThreaded {V : Type} (d : List (Key × V)) (k : Key) :
    Bool × List (Key × V) :=
  match dictKeysThreaded d with
  | (ks1, d1) =>
    match dictKeysThreaded d1 with
    | (ks2, d2) => (ks1.contains k || ks2.contains k.toText, d2)

theorem getItemThreaded_eq {V : Type} (d : List (Key × V)) (k : Key) :
    getItemThreaded d k = (StrKeyDict0.get_item d k, d) := by
  rw [getItemThreaded, get_item_unfold]
  unfold getItemOneStep dictGetThreaded
  cases hd : dictGet d k with
  | some v => rfl
  | none =>
    by_cases hk : k.isText
    · simp [hk]
    · simp [hk]
      rw [getItemThreaded]
      unfold dictGetThreaded
      cases hd2 : dictGet d k.toText with
      | some v => rfl
      | none => simp [Key.isText_toText]

/-- Claim C8: `get_item`, `get_or_default` and `contains` are pure reads:
threading the backing store through every base-`dict` operation each of
them performs, the store after the call is exactly the store before it —
on hits and on misses alike — and the result is the one computed by the
plain functions. -/
theorem C8_pure_reads {V : Type} (d : List (Key × V)) (k : Key) (default : V) :
    (getItemThreaded d k).2 = d ∧
    (getThreaded d k default).2 = d ∧
    (containsThreaded d k).2 = d ∧
    (getItemThreaded d k).1 = StrKeyDict0.get_item d k ∧
    (getThreaded d k default).1 = StrKeyDict0.get d k default ∧
    (containsThreaded d k).1 = StrKeyDict0.__contains__ d k := by
  have h := getItemThreaded_eq d k
  have hget2 : (getThreaded d k default).2 = d := by
    cases hg : StrKeyDict0.get_item d k <;> simp [getThreaded, h, hg]
  have hget1 : (getThreaded d k default).1 = StrKeyDict0.get d k default := by
    cases hg : StrKeyDict0.get_item d k <;>
      simp [getThreaded, StrKeyDict0.get, h, hg]
  exact ⟨by rw [h], hget2, rfl, by rw [h], hget1, rfl⟩

/-- Claim C9: `get_item` terminates on every input with recursion depth at
most one: its value is fully given by the one-step unfolding
`getItemOneStep`, the converted key is always text-typed, and the miss
handler applied to a converted key fails immediately instead of
re-entering the conversion branch. -/
theorem C9_termination_depth_one {V : Type} (d : List (Key × V)) (k : Key) :
    StrKeyDict0.get_item d k = getItemOneStep d k ∧
    Key.isText (Key.toText k) = true ∧
    StrKeyDict0.__missing__ d (Key.toText k) = Except.error (Key.toText k) := by
  refine ⟨get_item_unfold d k, rfl, ?_⟩
  unfold StrKeyDict0.__missing__
  simp [Key.isText_toText]

/-- Claim C10: `contains` is true exactly when `get_item` succeeds: the
independent membership disjunction over the stored keys coincides with
the success condition of the two-tier lookup. -/
theorem C10_contains_iff_lookup_success {V : Type} (d : List (Key × V)) (k : Key) :
    StrKeyDict0.__contains__ d k = true ↔
      ∃ v, StrKeyDict0.get_item d k = Except.ok v := by
  rw [get_item_unfold]
  unfold StrKeyDict0.__contains__ getItemOneStep
  rw [dictKeys_contains_eq, dictKeys_contains_eq]
  cases hd : dictGet d k with
  | some v => simp [hd]
  | none =>
    by_cases hk : k.isText
    · have hself : k.toText = k := by
        cases k with
        | text s => rfl
        | int n => simp [Key.isText] at hk
      rw [hself]
      simp [hd, hk]
    · simp [hd, hk]
      cases hd2 : dictGet d k.toText with
      | some v => simp
      | none => simp
